import Mathlib

/-!
Verification of the privilege-separated BPF initiator (src/privsep-bpf.c).

Shallow embedding of the data model and the operations of the file:
the supervisor command dispatcher `ps_bpf_cmd`, the frame dispatcher
`ps_bpf_dispatch`, the worker-side message handler `ps_bpf_recvmsgcb`,
the worker capture loop `ps_bpf_recvbpf` and the injection path
`ps_bpf_send` / `ps_bpf_sendarp` / `ps_bpf_sendbootp`.

Machine integers are modelled as `Nat` with explicit modular reduction
where the C code can wrap (`size_t` subtraction).  Byte strings are
`List Nat` (each element a byte value).  Fallible paths are explicit
result constructors.
-/

/-- Modelled from the spec: command codes (privsep.h is not under src/).
Protocol tags are combined bitwise with disjoint single-bit START/STOP
modifiers; the exact numeric values are immaterial to the claims, only
that the tags are distinct and do not overlap the modifier bits. -/
def PS_START : Nat := 0x4000

/-- Modelled from the spec: the STOP modifier bit (privsep.h is not under src/). -/
def PS_STOP : Nat := 0x8000

/-- Modelled from the spec: the BOOTP protocol tag (privsep.h is not under src/). -/
def PS_BPF_BOOTP : Nat := 0x0020

/-- Modelled from the spec: the ARP protocol tag (privsep.h is not under src/). -/
def PS_BPF_ARP : Nat := 0x0021

/-- Ethertype for IP, as in netinet headers. -/
def ETHERTYPE_IP : Nat := 0x0800

/-- Ethertype for ARP, as in netinet headers. -/
def ETHERTYPE_ARP : Nat := 0x0806

/-- errno value EINVAL (invalid request). -/
def EINVAL : Nat := 22

/-- errno value ENOTSUP (operation not supported). -/
def ENOTSUP : Nat := 95

/-- errno value ECONNRESET (peer already closed). -/
def ECONNRESET : Nat := 104

/-- Modelled from the spec: the end-of-stream bit of the capture flags
bitfield (bpf.h is not under src/). -/
def BPF_EOF : Nat := 1

/-- Modelled from the spec: the maximum raw frame size constant
(bpf.h is not under src/); ether header + MTU. -/
def FRAMELEN_MAX : Nat := 1514

/-- Abstract stand-in for `sizeof(struct interface)`, the size of one
interface snapshot carried by a START payload.  The concrete value is
immaterial to the claims; only equality of the payload length with it
is ever tested. -/
def IF_SNAPSHOT_SIZE : Nat := 64

/-- Size in bytes of the flags field (`sizeof(bpf->bpf_flags)`,
an unsigned int). -/
def FLAGS_SIZE : Nat := 4

/-- 2^64, the modulus of `size_t` arithmetic. -/
def SIZE_T_MOD : Nat := 18446744073709551616

/-- Mask a command down to its protocol tag:
`cmd & ~(PS_START | PS_STOP)` on a 16-bit command word. -/
def maskCmd (c : Nat) : Nat := c &&& 0x3FFF

/-- Routing key `struct ps_id`: masked protocol command, interface
index, and (for ARP) an optional IPv4 address (0 = INADDR_ANY). -/
structure PsId where
  psi_cmd : Nat
  psi_ifindex : Nat
  psi_addr : Nat
  deriving DecidableEq, Repr

/-- Capture filter program reference selected for a worker. -/
inductive FilterProg
  | unset
  | bpf_arp
  | bpf_bootp
  deriving DecidableEq, Repr

/-- Worker record `struct ps_process` (the fields this file touches):
routing key, process id, the interface snapshot copied from the START
payload, the protocol tag and display string and the filter program. -/
structure PsProcess where
  psp_id : PsId
  psp_pid : Nat
  psp_snapshot : List Nat
  psp_proto : Nat
  psp_protostr : String
  psp_filter : FilterProg
  deriving DecidableEq, Repr

/-- The supervisor's key-to-worker mapping, looked up by
`ps_findprocess`: find the (unique) record whose id equals the key. -/
def ps_findprocess : List PsProcess → PsId → Option PsProcess
  | [], _ => none
  | p :: rest, k => if p.psp_id = k then some p else ps_findprocess rest k

/-- Number of worker records carrying a given routing key. -/
def countKey : List PsProcess → PsId → Nat
  | [], _ => 0
  | p :: rest, k => (if p.psp_id = k then 1 else 0) + countKey rest k

/-- A fresh record as allocated by `ps_newprocess`: key set, every
other field still blank (populated only later by `ps_bpf_cmd`). -/
def blankProcess (k : PsId) : PsProcess :=
  { psp_id := k, psp_pid := 0, psp_snapshot := [],
    psp_proto := 0, psp_protostr := "", psp_filter := .unset }

/-- The record after `ps_bpf_cmd` populates it from the START payload
and the masked command: snapshot copied in, protocol tag / name /
filter selected by the masked command (ARP or BOOTP). -/
def populatedProcess (k : PsId) (pid : Nat) (snapshot : List Nat) (cmd : Nat) :
    PsProcess :=
  { psp_id := k, psp_pid := pid, psp_snapshot := snapshot,
    psp_proto := if cmd = PS_BPF_ARP then ETHERTYPE_ARP else ETHERTYPE_IP,
    psp_protostr := if cmd = PS_BPF_ARP then "ARP" else "BOOTP",
    psp_filter := if cmd = PS_BPF_ARP then .bpf_arp else .bpf_bootp }

/-- Outcome of the external `ps_dostart` (privsep.c, out of scope):
-1, 0 in the new child, or the child's pid in the supervisor. -/
inductive StartOutcome
  | fail
  | child
  | parent (pid : Nat)
  deriving DecidableEq, Repr

/-- Result of `ps_bpf_cmd`: `err e` is a -1 return with errno `e`;
`startFail` is a -1 return because `ps_dostart` failed (record freed);
`alreadyRunning` is the 1 return; `child` is the 0 return inside the
new worker; `started pid` is the positive pid return; `assertAbort` is
the `assert(iov->iov_len == sizeof(*ifp))` failure, which aborts the
process. -/
inductive CmdResult
  | err (errno : Nat)
  | startFail
  | alreadyRunning
  | child
  | started (pid : Nat)
  | assertAbort
  deriving DecidableEq, Repr

/-- Supervisor command dispatcher `ps_bpf_cmd` (privsep-bpf.c:183-275).
Mask the command to its protocol tag; unknown tags: -1/ENOTSUP.
No START bit: -1/EINVAL.  Existing worker for the key: return 1.
Otherwise `ps_newprocess` appends a fresh record, then the payload
length is asserted equal to one interface snapshot (a mismatch aborts
with the fresh record already in the mapping), the record is populated
and `ps_dostart` runs: on failure the record is freed again. -/
def ps_bpf_cmd (s : List PsProcess) (ps_cmd : Nat) (ps_id : PsId)
    (payload : List Nat) (start : StartOutcome) :
    CmdResult × List PsProcess :=
  let cmd := maskCmd ps_cmd
  if cmd = PS_BPF_ARP ∨ cmd = PS_BPF_BOOTP then
    if ps_cmd &&& PS_START = 0 then (.err EINVAL, s)
    else
      match ps_findprocess s ps_id with
      | some _ => (.alreadyRunning, s)
      | none =>
        if payload.length = IF_SNAPSHOT_SIZE then
          match start with
          | .fail => (.startFail, s)
          | .child => (.child, s ++ [populatedProcess ps_id 0 payload cmd])
          | .parent pid =>
              (.started pid, s ++ [populatedProcess ps_id pid payload cmd])
        else (.assertAbort, s ++ [blankProcess ps_id])
  else (.err ENOTSUP, s)

/-- Serialize the flags word into its four bytes, least significant
first (the `memcpy(buf, &bpf->bpf_flags, sizeof(bpf->bpf_flags))` of
the capture side; both sides share the host byte order, fixed here as
little-endian). -/
def flagsToBytesLE (f : Nat) : List Nat :=
  [f % 256, f / 256 % 256, f / 65536 % 256, f / 16777216 % 256]

/-- Read back a flags word from four bytes, least significant first
(the `memcpy(&bpf_flags, bpf, sizeof(bpf_flags))` of the dispatch
side).  A list that is not exactly four bytes corresponds to an
out-of-range read in the C code; the value is unconstrained and
modelled as 0. -/
def bytesToFlagsLE : List Nat → Nat
  | [b0, b1, b2, b3] => b0 + 256 * b1 + 65536 * b2 + 16777216 * b3
  | _ => 0

/-- Frame Envelope as built by the capture side (privsep-bpf.c:77-86):
the flags bytes occupy the fixed-size prefix of the buffer, the frame
bytes follow; the total length sent is frame length + flags size. -/
def encodeEnvelope (flags : Nat) (frame : List Nat) : List Nat :=
  flagsToBytesLE flags ++ frame

/-- Protocol handler selected by `ps_bpf_dispatch`. -/
inductive Proto
  | arp
  | bootp
  deriving DecidableEq, Repr

/-- Result of `ps_bpf_dispatch`: `handled` is the 1 return after
invoking `arp_packet` / `dhcp_packet` with the given frame pointer,
length and flags; `unsupported` is the -1 return with errno ENOTSUP. -/
inductive DispatchResult
  | handled (proto : Proto) (frame : List Nat) (frameLen : Nat) (flags : Nat)
  | unsupported
  deriving DecidableEq, Repr

/-- Supervisor frame dispatcher `ps_bpf_dispatch` (privsep-bpf.c:277-309).
The flags word is copied out of the payload prefix, the frame pointer
is advanced past it and the length is reduced by its size — a `size_t`
subtraction with no guard, modelled as addition of `2^64 - 4` modulo
`2^64` so that a payload shorter than the prefix wraps around exactly
as the C code does.  The switch is on the unmasked command; the worker
table is never touched (the function only resolves the interface by
index and calls the protocol handler). -/
def ps_bpf_dispatch (ps_cmd : Nat) (payload : List Nat) : DispatchResult :=
  let bpf_flags := bytesToFlagsLE (payload.take FLAGS_SIZE)
  let bpf := payload.drop FLAGS_SIZE
  let bpf_len := (payload.length + (SIZE_T_MOD - FLAGS_SIZE)) % SIZE_T_MOD
  if ps_cmd = PS_BPF_ARP then .handled .arp bpf bpf_len bpf_flags
  else if ps_cmd = PS_BPF_BOOTP then .handled .bootp bpf bpf_len bpf_flags
  else .unsupported

/-- Result of the worker-side handler `ps_bpf_recvmsgcb`: `write d`
means `bpf_send` was invoked and the bytes `d` went out on the raw
handle; `err e` is the -1 return with errno `e`. -/
inductive RecvmsgResult
  | write (data : List Nat)
  | err (errno : Nat)
  deriving DecidableEq, Repr

/-- Modelled from the spec: `bpf_send` (bpf.c is not under src/)
writes the given frame bytes unmodified to the worker's raw handle, a
"write of one frame" on the raw filtering handle. -/
def bpf_send (_proto : Nat) (data : List Nat) : RecvmsgResult :=
  .write data

/-- Worker-side message handler `ps_bpf_recvmsgcb` (privsep-bpf.c:94-119).
The switch accepts exactly the two bare frame commands `PS_BPF_ARP`
and `PS_BPF_BOOTP` — whichever protocol the worker was started for —
and then performs the raw write of the whole payload; any other
command is -1 with errno EINVAL. -/
def ps_bpf_recvmsgcb (psp : PsProcess) (ps_cmd : Nat) (payload : List Nat) :
    RecvmsgResult :=
  if ps_cmd = PS_BPF_ARP ∨ ps_cmd = PS_BPF_BOOTP then
    bpf_send psp.psp_proto payload
  else .err EINVAL

/-- Outcome of one `ps_sendpsmdata` call from the capture loop to the
supervisor: positive return, zero return, or -1 with the given errno. -/
inductive SendRes
  | ok
  | zero
  | fail (errno : Nat)
  deriving DecidableEq, Repr

/-- One interaction with the raw filtering handle, an external
collaborator (`bpf_read`, bpf.c is not under src/): a frame read
returning the frame bytes and the flags word as left by the read
(which may set `BPF_EOF` when the buffered batch is exhausted),
a zero-length read (clean close), or a read error.  A frame event also
carries the outcome of the subsequent send to the supervisor. -/
inductive ReadEv
  | frame (data : List Nat) (flagsAfter : Nat) (send : SendRes)
  | eof
  | err
  deriving DecidableEq, Repr

/-- Log emissions of one capture-loop invocation. -/
inductive LogEv
  | readErr
  | sendErr
  deriving DecidableEq, Repr

/-- Observable outcome of one capture-loop invocation: the Command
Message payloads successfully forwarded to the supervisor, in order,
and the errors logged. -/
structure LoopOut where
  sent : List (List Nat)
  logs : List LogEv
  deriving DecidableEq, Repr

/-- Clear the end-of-stream bit: `bpf_flags &= ~BPF_EOF` on the
32-bit flags word. -/
def clearEOF (f : Nat) : Nat := f &&& 0xFFFFFFFE

/-- Body of the capture loop (privsep-bpf.c:76-91): while the
end-of-stream flag is clear, read one frame; a read error logs and
stops, a zero-length read stops; otherwise the flags left by the read
are copied into the buffer prefix and the envelope is sent to the
supervisor; a send failure stops the loop and is logged unless errno
is ECONNRESET, a zero send return stops silently. -/
def recvbpfLoop : Nat → List ReadEv → LoopOut
  | _, [] => ⟨[], []⟩
  | flags, ev :: rest =>
    if flags &&& BPF_EOF = 0 then
      match ev with
      | .err => ⟨[], [.readErr]⟩
      | .eof => ⟨[], []⟩
      | .frame data fA sres =>
        match sres with
        | .ok =>
            ⟨encodeEnvelope fA data :: (recvbpfLoop fA rest).sent,
             (recvbpfLoop fA rest).logs⟩
        | .zero => ⟨[], []⟩
        | .fail e => ⟨[], if e = ECONNRESET then [] else [.sendErr]⟩
    else ⟨[], []⟩

/-- Capture loop `ps_bpf_recvbpf` (privsep-bpf.c:61-92): the
end-of-stream flag is cleared on entry, then the drain loop runs over
the handle's events. -/
def ps_bpf_recvbpf (flags0 : Nat) (evs : List ReadEv) : LoopOut :=
  recvbpfLoop (clearEOF flags0) evs

/-- Command Message header `struct ps_msghdr` as built by the
injection path. -/
structure PsMsghdr where
  ps_cmd : Nat
  ps_id : PsId
  deriving DecidableEq, Repr

/-- Injection-path builder `ps_bpf_send` (privsep-bpf.c:311-328):
the header carries the full command, the key is the masked command
plus interface index plus the optional address (zero-initialized when
absent); the payload is exactly the caller's bytes, no flags prefix. -/
def ps_bpf_send (ifindex : Nat) (ia : Option Nat) (cmd : Nat)
    (data : List Nat) : PsMsghdr × List Nat :=
  ({ ps_cmd := cmd,
     ps_id := { psi_cmd := maskCmd cmd, psi_ifindex := ifindex,
                psi_addr := ia.getD 0 } }, data)

/-- Outbound ARP frame `ps_bpf_sendarp` (privsep-bpf.c:347-354). -/
def ps_bpf_sendarp (ifindex : Nat) (ia : Nat) (data : List Nat) :
    PsMsghdr × List Nat :=
  ps_bpf_send ifindex (some ia) PS_BPF_ARP data

/-- Outbound BOOTP frame `ps_bpf_sendbootp` (privsep-bpf.c:372-377). -/
def ps_bpf_sendbootp (ifindex : Nat) (data : List Nat) :
    PsMsghdr × List Nat :=
  ps_bpf_send ifindex none PS_BPF_BOOTP data

/-! Helper lemmas about the worker registry. -/

lemma ps_findprocess_append_none {s : List PsProcess} {k : PsId}
    (h : ps_findprocess s k = none) (p : PsProcess) :
    ps_findprocess (s ++ [p]) k = if p.psp_id = k then some p else none := by
  induction s with
  | nil => simp [ps_findprocess]
  | cons q rest ih =>
    simp only [ps_findprocess, List.cons_append] at h ⊢
    by_cases hq : q.psp_id = k
    · rw [if_pos hq] at h; cases h
    · rw [if_neg hq] at h ⊢; exact ih h

lemma countKey_append (s : List PsProcess) (p : PsProcess) (k : PsId) :
    countKey (s ++ [p]) k = countKey s k + (if p.psp_id = k then 1 else 0) := by
  induction s with
  | nil => simp [countKey]
  | cons q rest ih =>
    rw [List.cons_append]
    simp only [countKey]
    rw [ih]
    omega

lemma countKey_zero_of_none {s : List PsProcess} {k : PsId}
    (h : ps_findprocess s k = none) : countKey s k = 0 := by
  induction s with
  | nil => rfl
  | cons q rest ih =>
    simp only [ps_findprocess] at h
    by_cases hq : q.psp_id = k
    · rw [if_pos hq] at h; cases h
    · rw [if_neg hq] at h
      simp [countKey, hq, ih h]

/-! Helper lemmas about the capture loop. -/

lemma clearEOF_eof (f : Nat) : clearEOF f &&& BPF_EOF = 0 := by
  unfold clearEOF BPF_EOF
  rw [Nat.land_assoc]
  norm_num

lemma recvbpfLoop_ok_cons (flags : Nat) (d : List Nat) (fA : Nat)
    (rest : List ReadEv) (h : flags &&& BPF_EOF = 0) :
    recvbpfLoop flags (ReadEv.frame d fA SendRes.ok :: rest)
      = ⟨encodeEnvelope fA d :: (recvbpfLoop fA rest).sent,
         (recvbpfLoop fA rest).logs⟩ := by
  simp [recvbpfLoop, h]

lemma recvbpfLoop_okRun (frames : List (List Nat × Nat)) (tail : List ReadEv)
    (flags : Nat) (out : LoopOut)
    (hflags : flags &&& BPF_EOF = 0)
    (hfr : ∀ p ∈ frames, p.2 &&& BPF_EOF = 0)
    (htail : ∀ g, g &&& BPF_EOF = 0 → recvbpfLoop g tail = out) :
    recvbpfLoop flags
        (frames.map (fun p => ReadEv.frame p.1 p.2 SendRes.ok) ++ tail)
      = ⟨frames.map (fun p => encodeEnvelope p.2 p.1) ++ out.sent, out.logs⟩ := by
  induction frames generalizing flags with
  | nil =>
    simp only [List.map_nil, List.nil_append]
    rw [htail flags hflags]
  | cons hd tl ih =>
    have hhd : hd.2 &&& BPF_EOF = 0 := hfr hd (by simp)
    have htl : ∀ p ∈ tl, p.2 &&& BPF_EOF = 0 := fun p hp => hfr p (by simp [hp])
    simp only [List.map_cons, List.cons_append]
    rw [recvbpfLoop_ok_cons _ _ _ _ hflags, ih hd.2 hhd htl]

/-! Helper lemmas about the frame dispatcher. -/

lemma dispatch_arp (payload : List Nat) :
    ps_bpf_dispatch PS_BPF_ARP payload
      = .handled .arp (payload.drop FLAGS_SIZE)
          ((payload.length + (SIZE_T_MOD - FLAGS_SIZE)) % SIZE_T_MOD)
          (bytesToFlagsLE (payload.take FLAGS_SIZE)) := by
  simp [ps_bpf_dispatch]

lemma dispatch_bootp (payload : List Nat) :
    ps_bpf_dispatch PS_BPF_BOOTP payload
      = .handled .bootp (payload.drop FLAGS_SIZE)
          ((payload.length + (SIZE_T_MOD - FLAGS_SIZE)) % SIZE_T_MOD)
          (bytesToFlagsLE (payload.take FLAGS_SIZE)) := by
  simp [ps_bpf_dispatch, PS_BPF_BOOTP, PS_BPF_ARP]

/-! Claim theorems. -/

/-- C1, counterexample: the claim "a START whose payload length differs
from the interface-snapshot size is rejected before any worker record
is created, leaving the key-to-worker mapping unchanged" is false at a
concrete input: on an empty mapping, a BOOTP START with an empty
payload ends in the length-assertion abort, but the mapping at that
point is no longer empty — `ps_newprocess` ran before the length
check. -/
theorem claim_C1_counterexample :
    (ps_bpf_cmd [] (PS_BPF_BOOTP ||| PS_START) ⟨PS_BPF_BOOTP, 1, 0⟩ []
        StartOutcome.fail).2 ≠ [] := by
  decide

/-- C1, amended: a START whose payload length differs from the
interface-snapshot size is a fatal assertion failure, but the check
runs only after `ps_newprocess` has created a worker record when none
existed for the key (the mapping holds the fresh record at the abort
point); when a worker already exists for the key the command returns 1
without any length validation. -/
theorem claim_C1_amended (s : List PsProcess) (c : Nat) (k : PsId)
    (payload : List Nat) (st : StartOutcome)
    (hmask : maskCmd c = PS_BPF_ARP ∨ maskCmd c = PS_BPF_BOOTP)
    (hstart : c &&& PS_START ≠ 0)
    (hlen : payload.length ≠ IF_SNAPSHOT_SIZE) :
    (ps_findprocess s k = none →
       ps_bpf_cmd s c k payload st = (.assertAbort, s ++ [blankProcess k])) ∧
    (∀ p, ps_findprocess s k = some p →
       ps_bpf_cmd s c k payload st = (.alreadyRunning, s)) := by
  constructor
  · intro hnone
    simp only [ps_bpf_cmd, hnone]
    rw [if_pos hmask, if_neg hstart, if_neg hlen]
  · intro p hp
    simp only [ps_bpf_cmd, hp]
    rw [if_pos hmask, if_neg hstart]

/-- C1, witness for the amended claim at a concrete input. -/
theorem claim_C1_witness :
    ps_bpf_cmd [] (PS_BPF_BOOTP ||| PS_START) ⟨PS_BPF_BOOTP, 1, 0⟩ []
        StartOutcome.fail
      = (.assertAbort, [blankProcess ⟨PS_BPF_BOOTP, 1, 0⟩]) :=
  (claim_C1_amended [] (PS_BPF_BOOTP ||| PS_START) ⟨PS_BPF_BOOTP, 1, 0⟩ []
    StartOutcome.fail (by decide) (by decide) (by decide)).1 rfl

/-- C2, counterexample: the claim "the worker-side handler accepts only
frame commands for the protocol that worker was started for" is false
at a concrete input: a worker started for BOOTP whose handler receives
an ARP frame command performs the raw write instead of reporting an
error. -/
theorem claim_C2_counterexample :
    ps_bpf_recvmsgcb (populatedProcess ⟨PS_BPF_BOOTP, 1, 0⟩ 7 [] PS_BPF_BOOTP)
        PS_BPF_ARP [1, 2, 3]
      = .write [1, 2, 3] ∧
    PS_BPF_ARP
      ≠ (populatedProcess ⟨PS_BPF_BOOTP, 1, 0⟩ 7 [] PS_BPF_BOOTP).psp_id.psi_cmd := by
  decide

/-- C2, amended: the worker-side handler accepts the two bare frame
commands (ARP and BOOTP) regardless of which protocol the worker was
started for, performing the raw write of the payload; any other
command is reported as a negative result with the invalid-request
indicator EINVAL rather than written. -/
theorem claim_C2_amended (psp : PsProcess) (c : Nat) (payload : List Nat) :
    ((c = PS_BPF_ARP ∨ c = PS_BPF_BOOTP) →
       ps_bpf_recvmsgcb psp c payload = .write payload) ∧
    (c ≠ PS_BPF_ARP → c ≠ PS_BPF_BOOTP →
       ps_bpf_recvmsgcb psp c payload = .err EINVAL) := by
  constructor
  · intro h
    simp only [ps_bpf_recvmsgcb, bpf_send]
    rw [if_pos h]
  · intro h1 h2
    simp only [ps_bpf_recvmsgcb]
    rw [if_neg]
    rintro (h | h)
    · exact h1 h
    · exact h2 h

/-- C2, witness for the amended claim at a concrete input: a command
with the START bit set is rejected with EINVAL by the worker-side
handler. -/
theorem claim_C2_witness :
    ps_bpf_recvmsgcb (blankProcess ⟨PS_BPF_BOOTP, 1, 0⟩)
        (PS_BPF_ARP ||| PS_START) [] = .err EINVAL :=
  (claim_C2_amended (blankProcess ⟨PS_BPF_BOOTP, 1, 0⟩)
    (PS_BPF_ARP ||| PS_START) []).2 (by decide) (by decide)

/-- C3: starting a worker twice for the same routing key (with no
intervening worker death) yields exactly one worker record for that
key; the first START returns the child's pid and appends exactly one
populated record, and the second START returns the distinct
already-running indicator 1 (not a pid, not 0, not an error) with the
mapping unchanged. -/
theorem claim_C3 (s : List PsProcess) (c c2 : Nat) (k : PsId)
    (payload payload2 : List Nat) (pid : Nat) (st2 : StartOutcome)
    (hmask : maskCmd c = PS_BPF_ARP ∨ maskCmd c = PS_BPF_BOOTP)
    (hstart : c &&& PS_START ≠ 0)
    (hmask2 : maskCmd c2 = PS_BPF_ARP ∨ maskCmd c2 = PS_BPF_BOOTP)
    (hstart2 : c2 &&& PS_START ≠ 0)
    (hnone : ps_findprocess s k = none)
    (hlen : payload.length = IF_SNAPSHOT_SIZE) :
    ps_bpf_cmd s c k payload (.parent pid)
      = (.started pid, s ++ [populatedProcess k pid payload (maskCmd c)]) ∧
    countKey (s ++ [populatedProcess k pid payload (maskCmd c)]) k = 1 ∧
    ps_bpf_cmd (s ++ [populatedProcess k pid payload (maskCmd c)]) c2 k
        payload2 st2
      = (.alreadyRunning, s ++ [populatedProcess k pid payload (maskCmd c)]) := by
  have hfind : ps_findprocess (s ++ [populatedProcess k pid payload (maskCmd c)]) k
      = some (populatedProcess k pid payload (maskCmd c)) := by
    rw [ps_findprocess_append_none hnone]
    simp [populatedProcess]
  refine ⟨?_, ?_, ?_⟩
  · simp only [ps_bpf_cmd, hnone]
    rw [if_pos hmask, if_neg hstart, if_pos hlen]
  · rw [countKey_append, countKey_zero_of_none hnone]
    simp [populatedProcess]
  · simp only [ps_bpf_cmd, hfind]
    rw [if_pos hmask2, if_neg hstart2]

/-- C3, witness at a concrete input: first BOOTP START creates one
record and returns pid 7, second START returns the already-running
indicator. -/
theorem claim_C3_witness :
    ps_bpf_cmd [] (PS_BPF_BOOTP ||| PS_START) ⟨PS_BPF_BOOTP, 1, 0⟩
        (List.replicate 64 0) (.parent 7)
      = (.started 7,
         [populatedProcess ⟨PS_BPF_BOOTP, 1, 0⟩ 7 (List.replicate 64 0)
            (maskCmd (PS_BPF_BOOTP ||| PS_START))]) ∧
    countKey [populatedProcess ⟨PS_BPF_BOOTP, 1, 0⟩ 7 (List.replicate 64 0)
        (maskCmd (PS_BPF_BOOTP ||| PS_START))] ⟨PS_BPF_BOOTP, 1, 0⟩ = 1 ∧
    ps_bpf_cmd [populatedProcess ⟨PS_BPF_BOOTP, 1, 0⟩ 7 (List.replicate 64 0)
        (maskCmd (PS_BPF_BOOTP ||| PS_START))] (PS_BPF_BOOTP ||| PS_START)
        ⟨PS_BPF_BOOTP, 1, 0⟩ (List.replicate 64 0) (.parent 9)
      = (.alreadyRunning,
         [populatedProcess ⟨PS_BPF_BOOTP, 1, 0⟩ 7 (List.replicate 64 0)
            (maskCmd (PS_BPF_BOOTP ||| PS_START))]) := by
  have h := claim_C3 [] (PS_BPF_BOOTP ||| PS_START) (PS_BPF_BOOTP ||| PS_START)
    ⟨PS_BPF_BOOTP, 1, 0⟩ (List.replicate 64 0) (List.replicate 64 0) 7
    (.parent 9) (by decide) (by decide) (by decide) (by decide) rfl
    (by simp [IF_SNAPSHOT_SIZE])
  simpa using h

/-- C4: encoding a Frame Envelope on the capture side (flags copied
into the fixed-size prefix, frame bytes after it, total length = frame
length + flags-field size) and decoding it on the dispatch side (flags
read from the prefix, payload advanced past it, length reduced by the
prefix size) recovers exactly the original flags and the original
frame bytes and length, for either protocol handler. -/
theorem claim_C4 (flags : Nat) (frame : List Nat)
    (hf : flags < 4294967296) (hl : frame.length ≤ FRAMELEN_MAX) :
    ps_bpf_dispatch PS_BPF_ARP (encodeEnvelope flags frame)
        = .handled .arp frame frame.length flags ∧
    ps_bpf_dispatch PS_BPF_BOOTP (encodeEnvelope flags frame)
        = .handled .bootp frame frame.length flags := by
  have htake : (encodeEnvelope flags frame).take FLAGS_SIZE
      = flagsToBytesLE flags := rfl
  have hdrop : (encodeEnvelope flags frame).drop FLAGS_SIZE = frame := rfl
  have hlen : (encodeEnvelope flags frame).length = frame.length + 4 := by
    simp only [encodeEnvelope, flagsToBytesLE, List.length_append,
      List.length_cons, List.length_nil]
    omega
  have hfl : bytesToFlagsLE (flagsToBytesLE flags) = flags := by
    simp only [bytesToFlagsLE, flagsToBytesLE]
    omega
  have hl' : frame.length ≤ 1514 := hl
  have hmod : (frame.length + 4 + (SIZE_T_MOD - FLAGS_SIZE)) % SIZE_T_MOD
      = frame.length := by
    unfold SIZE_T_MOD FLAGS_SIZE
    omega
  constructor
  · rw [dispatch_arp, htake, hdrop, hfl, hlen, hmod]
  · rw [dispatch_bootp, htake, hdrop, hfl, hlen, hmod]

/-- C4, witness at a concrete input. -/
theorem claim_C4_witness :
    ps_bpf_dispatch PS_BPF_ARP (encodeEnvelope 5 [9, 8, 7])
        = .handled .arp [9, 8, 7] 3 5 ∧
    ps_bpf_dispatch PS_BPF_BOOTP (encodeEnvelope 5 [9, 8, 7])
        = .handled .bootp [9, 8, 7] 3 5 :=
  claim_C4 5 [9, 8, 7] (by decide) (by decide)

/-- C5: for a raw handle that yields frames F1..Fn (none of which
exhausts the buffered batch) followed by end-of-input (a zero-length
read or a read error), one invocation of the capture loop forwards
exactly n Command Message payloads to the supervisor, in capture
order, each a Frame Envelope of the per-read flags and that frame's
bytes, and nothing after end-of-input; the end-of-stream flag is
cleared at entry, so the initial flags word is arbitrary. -/
theorem claim_C5 (flags0 : Nat) (frames : List (List Nat × Nat)) (term : ReadEv)
    (hterm : term = ReadEv.eof ∨ term = ReadEv.err)
    (hfr : ∀ p ∈ frames, p.2 &&& BPF_EOF = 0) :
    (ps_bpf_recvbpf flags0
        (frames.map (fun p => ReadEv.frame p.1 p.2 SendRes.ok) ++ [term])).sent
      = frames.map (fun p => encodeEnvelope p.2 p.1) := by
  unfold ps_bpf_recvbpf
  rcases hterm with h | h <;> subst h
  · rw [recvbpfLoop_okRun frames [ReadEv.eof] (clearEOF flags0) ⟨[], []⟩
        (clearEOF_eof flags0) hfr (fun g hg => by simp [recvbpfLoop, hg])]
    simp
  · rw [recvbpfLoop_okRun frames [ReadEv.err] (clearEOF flags0)
        ⟨[], [LogEv.readErr]⟩
        (clearEOF_eof flags0) hfr (fun g hg => by simp [recvbpfLoop, hg])]
    simp

/-- C5, witness at a concrete input: entry flags have the end-of-stream
bit set, two frames then a clean close; both frames are forwarded in
order. -/
theorem claim_C5_witness :
    (ps_bpf_recvbpf 1
        (([([5], 0), ([6], 0)] : List (List Nat × Nat)).map
            (fun p => ReadEv.frame p.1 p.2 SendRes.ok) ++ [ReadEv.eof])).sent
      = ([([5], 0), ([6], 0)] : List (List Nat × Nat)).map
          (fun p => encodeEnvelope p.2 p.1) :=
  claim_C5 1 [([5], 0), ([6], 0)] ReadEv.eof (Or.inl rfl) (by decide)

/-- C6: a command whose masked protocol tag is neither ARP nor BOOTP
is answered by both the supervisor command dispatcher and the frame
dispatcher with -1 and errno ENOTSUP, and the worker mapping is left
unchanged (the frame dispatcher never touches it at all). -/
theorem claim_C6 (s : List PsProcess) (c : Nat) (k : PsId)
    (payload : List Nat) (st : StartOutcome)
    (h1 : maskCmd c ≠ PS_BPF_ARP) (h2 : maskCmd c ≠ PS_BPF_BOOTP) :
    ps_bpf_cmd s c k payload st = (.err ENOTSUP, s) ∧
    ps_bpf_dispatch c payload = .unsupported := by
  have hA : c ≠ PS_BPF_ARP := by
    intro h; subst h; exact h1 (by decide)
  have hB : c ≠ PS_BPF_BOOTP := by
    intro h; subst h; exact h2 (by decide)
  have hor : ¬(maskCmd c = PS_BPF_ARP ∨ maskCmd c = PS_BPF_BOOTP) := by
    rintro (h | h)
    · exact h1 h
    · exact h2 h
  constructor
  · simp only [ps_bpf_cmd]
    rw [if_neg hor]
  · simp only [ps_bpf_dispatch]
    rw [if_neg hA, if_neg hB]

/-- C6, witness at a concrete input. -/
theorem claim_C6_witness :
    ps_bpf_cmd [] 5 ⟨5, 1, 0⟩ [] StartOutcome.fail = (.err ENOTSUP, []) ∧
    ps_bpf_dispatch 5 [0, 0, 0, 0, 1] = .unsupported :=
  ⟨(claim_C6 [] 5 ⟨5, 1, 0⟩ [] StartOutcome.fail (by decide) (by decide)).1,
   (claim_C6 [] 5 ⟨5, 1, 0⟩ [0, 0, 0, 0, 1] StartOutcome.fail (by decide)
     (by decide)).2⟩

/-- C7: a frame sent via the injection path carries exactly the
caller's bytes as payload — no flags prefix is added outbound — and
the worker-side handler, receiving that message, writes exactly those
bytes (byte-for-byte, same length) to its raw handle, for both ARP
and BOOTP. -/
theorem claim_C7 (ifindex ia : Nat) (data : List Nat) (psp : PsProcess) :
    (ps_bpf_sendarp ifindex ia data).2 = data ∧
    ps_bpf_recvmsgcb psp (ps_bpf_sendarp ifindex ia data).1.ps_cmd
        (ps_bpf_sendarp ifindex ia data).2 = .write data ∧
    (ps_bpf_sendbootp ifindex data).2 = data ∧
    ps_bpf_recvmsgcb psp (ps_bpf_sendbootp ifindex data).1.ps_cmd
        (ps_bpf_sendbootp ifindex data).2 = .write data := by
  refine ⟨rfl, ?_, rfl, ?_⟩ <;>
    simp [ps_bpf_sendarp, ps_bpf_sendbootp, ps_bpf_send, ps_bpf_recvmsgcb,
      bpf_send]

/-- C8: a failed send of a captured frame to the supervisor stops the
capture loop in every case — nothing read after the failing send is
processed — and a send-error log entry is emitted exactly when the
errno is not the peer-closed ECONNRESET; a peer-closed send failure
stops the loop with no log entry. -/
theorem claim_C8 (flags0 : Nat) (pre : List (List Nat × Nat)) (d : List Nat)
    (fA e : Nat) (rest : List ReadEv)
    (hpre : ∀ p ∈ pre, p.2 &&& BPF_EOF = 0) :
    ps_bpf_recvbpf flags0
        (pre.map (fun p => ReadEv.frame p.1 p.2 SendRes.ok)
          ++ ReadEv.frame d fA (SendRes.fail e) :: rest)
      = ⟨pre.map (fun p => encodeEnvelope p.2 p.1),
         if e = ECONNRESET then [] else [LogEv.sendErr]⟩ := by
  unfold ps_bpf_recvbpf
  rw [recvbpfLoop_okRun pre (ReadEv.frame d fA (SendRes.fail e) :: rest)
      (clearEOF flags0) ⟨[], if e = ECONNRESET then [] else [LogEv.sendErr]⟩
      (clearEOF_eof flags0) hpre (fun g hg => by simp [recvbpfLoop, hg])]
  simp

/-- C8, witness at concrete inputs: one successful frame, then a send
failing with ECONNRESET stops the loop silently, while the same
failure with errno 13 stops the loop with a send-error log. -/
theorem claim_C8_witness :
    ps_bpf_recvbpf 0
        (([([5], 0)] : List (List Nat × Nat)).map
            (fun p => ReadEv.frame p.1 p.2 SendRes.ok)
          ++ ReadEv.frame [6] 0 (SendRes.fail ECONNRESET)
            :: [ReadEv.frame [7] 0 SendRes.ok])
      = ⟨[encodeEnvelope 0 [5]], []⟩ ∧
    ps_bpf_recvbpf 0
        (([([5], 0)] : List (List Nat × Nat)).map
            (fun p => ReadEv.frame p.1 p.2 SendRes.ok)
          ++ ReadEv.frame [6] 0 (SendRes.fail 13)
            :: [ReadEv.frame [7] 0 SendRes.ok])
      = ⟨[encodeEnvelope 0 [5]], [LogEv.sendErr]⟩ := by
  constructor
  · have h := claim_C8 0 [([5], 0)] [6] 0 ECONNRESET
      [ReadEv.frame [7] 0 SendRes.ok] (by decide)
    simpa using h
  · have h := claim_C8 0 [([5], 0)] [6] 0 13
      [ReadEv.frame [7] 0 SendRes.ok] (by decide)
    simpa [ECONNRESET] using h

/-- C9: a command with a recognized protocol tag whose START bit is
clear — in particular every STOP command — is answered by the
supervisor command dispatcher with -1 and errno EINVAL, with the
key-to-worker mapping unchanged: a STOP never removes a worker record
synchronously. -/
theorem claim_C9 (s : List PsProcess) (c : Nat) (k : PsId)
    (payload : List Nat) (st : StartOutcome)
    (hmask : maskCmd c = PS_BPF_ARP ∨ maskCmd c = PS_BPF_BOOTP)
    (hstop : c &&& PS_START = 0) :
    ps_bpf_cmd s c k payload st = (.err EINVAL, s) := by
  simp only [ps_bpf_cmd]
  rw [if_pos hmask, if_pos hstop]

/-- C9, witness at a concrete input: a BOOTP STOP aimed at a key whose
worker exists returns EINVAL and leaves the record in place. -/
theorem claim_C9_witness :
    ps_bpf_cmd [populatedProcess ⟨PS_BPF_BOOTP, 2, 0⟩ 9 [] PS_BPF_BOOTP]
        (PS_BPF_BOOTP ||| PS_STOP) ⟨PS_BPF_BOOTP, 2, 0⟩ [] StartOutcome.fail
      = (.err EINVAL, [populatedProcess ⟨PS_BPF_BOOTP, 2, 0⟩ 9 [] PS_BPF_BOOTP]) :=
  claim_C9 [populatedProcess ⟨PS_BPF_BOOTP, 2, 0⟩ 9 [] PS_BPF_BOOTP]
    (PS_BPF_BOOTP ||| PS_STOP) ⟨PS_BPF_BOOTP, 2, 0⟩ [] StartOutcome.fail
    (by decide) (by decide)

/-- C10: the frame dispatcher subtracts the flags-field size from the
payload length with no guard: for a payload at least as long as the
flags field the protocol handler receives payload length minus the
flags-field size, and for a shorter payload the `size_t` subtraction
wraps around to a value exceeding any legal frame length — payload
length ≥ flags-field size is a required precondition. -/
theorem claim_C10 (payload : List Nat) (hlt : payload.length < SIZE_T_MOD) :
    (FLAGS_SIZE ≤ payload.length →
       ps_bpf_dispatch PS_BPF_BOOTP payload
         = .handled .bootp (payload.drop FLAGS_SIZE)
             (payload.length - FLAGS_SIZE)
             (bytesToFlagsLE (payload.take FLAGS_SIZE))) ∧
    (payload.length < FLAGS_SIZE →
       ps_bpf_dispatch PS_BPF_BOOTP payload
         = .handled .bootp (payload.drop FLAGS_SIZE)
             (payload.length + (SIZE_T_MOD - FLAGS_SIZE))
             (bytesToFlagsLE (payload.take FLAGS_SIZE)) ∧
       FRAMELEN_MAX < payload.length + (SIZE_T_MOD - FLAGS_SIZE)) := by
  have hlt' : payload.length < 18446744073709551616 := hlt
  constructor
  · intro h
    have h' : 4 ≤ payload.length := h
    have hm : (payload.length + (SIZE_T_MOD - FLAGS_SIZE)) % SIZE_T_MOD
        = payload.length - FLAGS_SIZE := by
      unfold SIZE_T_MOD FLAGS_SIZE
      omega
    rw [dispatch_bootp, hm]
  · intro h
    have h' : payload.length < 4 := h
    have hm : (payload.length + (SIZE_T_MOD - FLAGS_SIZE)) % SIZE_T_MOD
        = payload.length + (SIZE_T_MOD - FLAGS_SIZE) := by
      unfold SIZE_T_MOD FLAGS_SIZE
      omega
    refine ⟨by rw [dispatch_bootp, hm], ?_⟩
    show FRAMELEN_MAX < _
    unfold FRAMELEN_MAX SIZE_T_MOD FLAGS_SIZE
    omega

/-- C10, witness at concrete inputs: a 5-byte payload hands the
handler length 1; a 2-byte payload wraps the length around to
2^64 - 2. -/
theorem claim_C10_witness :
    ps_bpf_dispatch PS_BPF_BOOTP [0, 0, 0, 0, 9]
        = .handled .bootp [9] 1 0 ∧
    ps_bpf_dispatch PS_BPF_BOOTP [0, 0]
        = .handled .bootp [] 18446744073709551614 0 ∧
    FRAMELEN_MAX < 18446744073709551614 := by
  refine ⟨?_, ?_, by decide⟩
  · exact (claim_C10 [0, 0, 0, 0, 9] (by decide)).1 (by decide)
  · exact ((claim_C10 [0, 0] (by decide)).2 (by decide)).1
